import Mathlib

/-
Shallow embedding of the xbot notification pipeline:
  - src/services/profile-analyzer.ts  (class ProfileAnalyzer)
  - src/unnamed/part_000              (class DOMExtractor)
  - src/content/index.ts              (class BotDetector)
Strings are modelled as Lean String (a list of characters); JavaScript regular
expressions are modelled as executable character-list scanners with search
semantics; JS numbers reaching comparisons are modelled as rationals.
-/

namespace XBot

/-- Character class test for the regex class [0-9] (ASCII code points 48 to 57). -/
def isDigitC (c : Char) : Bool := decide (48 ≤ c.toNat ∧ c.toNat ≤ 57)

/-- Character class test for the regex class [a-z] (ASCII code points 97 to 122). -/
def isLowerC (c : Char) : Bool := decide (97 ≤ c.toNat ∧ c.toNat ≤ 122)

/-- Character class test for the regex class [A-Z] (ASCII code points 65 to 90). -/
def isUpperC (c : Char) : Bool := decide (65 ≤ c.toNat ∧ c.toNat ≤ 90)

/-- Model of the per-character action of JavaScript toLowerCase: an ASCII
uppercase letter is shifted by 32 to its lowercase form, all other characters
are unchanged (no lowercase mapping of any character produces an ASCII
uppercase letter, so this restriction is faithful for the properties proved
here). -/
def charToLower (c : Char) : Char :=
  if isUpperC c then Char.ofNat (c.toNat + 32) else c

/-- Model of JavaScript String.prototype.toLowerCase. -/
def jsToLower (s : String) : String := ⟨s.data.map charToLower⟩

/-- Substring search: `containsSeq pat l` holds when `pat` occurs contiguously
in `l`, the semantics of an unanchored literal regex fragment. -/
def containsSeq (pat : List Char) : List Char → Bool
  | [] => pat.isEmpty
  | c :: rest => List.isPrefixOf pat (c :: rest) || containsSeq pat rest

/-- Search semantics of the regex /[0-9]{4,}/ : the string contains a run of at
least four consecutive digits. -/
def hasFourDigitRun : List Char → Bool
  | a :: b :: c :: d :: rest =>
    (isDigitC a && isDigitC b && isDigitC c && isDigitC d)
      || hasFourDigitRun (b :: c :: d :: rest)
  | _ => false

/-- State of the digits-letters-digits scanner after the letter block has
started: consume letters until a digit completes the match. -/
def dldTail : List Char → Bool
  | [] => false
  | c :: rest => if isDigitC c then true else if isLowerC c then dldTail rest else false

/-- State of the digits-letters-digits scanner after the first digit: consume
further digits, then require at least one letter before handing to `dldTail`. -/
def dldAfterDigit : List Char → Bool
  | [] => false
  | c :: rest =>
    if isDigitC c then dldAfterDigit rest
    else if isLowerC c then dldTail rest
    else false

/-- Search semantics of the regex alternative /[0-9]+[a-z]+[0-9]+/ : the string
contains a block of digits, then letters, then digits. -/
def hasDigitsLettersDigits : List Char → Bool
  | [] => false
  | c :: rest => (isDigitC c && dldAfterDigit rest) || hasDigitsLettersDigits rest

/-- Scanner for /[A-Z]{2,}[0-9]+/ once two uppercase letters have been seen:
further uppercase letters extend the run, a digit completes the match, anything
else fails this start position. -/
def rlScanRun : List Char → Bool
  | [] => false
  | c :: rest => if isDigitC c then true else if isUpperC c then rlScanRun rest else false

/-- Anchored-at-this-position test for /[A-Z]{2,}[0-9]+/. -/
def rlMatchAt : List Char → Bool
  | a :: b :: rest => isUpperC a && isUpperC b && rlScanRun rest
  | _ => false

/-- Search semantics of the regex /[A-Z]{2,}[0-9]+/ (PATTERNS.randomLetters). -/
def randomLettersTest : List Char → Bool
  | [] => false
  | c :: rest => rlMatchAt (c :: rest) || randomLettersTest rest

/-- Test of PATTERNS.randomAlphanumeric = /^[a-z0-9]{8,}$/ : the whole string is
at least eight characters, all lowercase letters or digits. -/
def randomAlphanumericTest (s : String) : Bool :=
  decide (8 ≤ s.data.length) && s.data.all (fun c => isLowerC c || isDigitC c)

/-- Test of PATTERNS.manyNumbers = /[0-9]{4,}/. -/
def manyNumbersTest (s : String) : Bool := hasFourDigitRun s.data

/-- Test of PATTERNS.botKeywords = /bot|spam|[0-9]+[a-z]+[0-9]+/. -/
def botKeywordsTest (s : String) : Bool :=
  containsSeq ("bot".data) s.data || containsSeq ("spam".data) s.data
    || hasDigitsLettersDigits s.data

/-- Test of PATTERNS.randomSuffix = /[a-z]+[0-9]{4,}$/ : the string ends in a
run of at least four digits immediately preceded by a lowercase letter (the
digit run is maximal since a shorter match would require a digit inside the
letter block). -/
def randomSuffixTest (s : String) : Bool :=
  let rev := s.data.reverse
  decide (4 ≤ (rev.takeWhile isDigitC).length)
    && (match rev.dropWhile isDigitC with
        | c :: _ => isLowerC c
        | [] => false)

/-- Test of PATTERNS.numericSuffix = /[0-9]{4,}$/ : the string ends in a run of
at least four digits. -/
def numericSuffixTest (s : String) : Bool :=
  decide (4 ≤ (s.data.reverse.takeWhile isDigitC).length)

/-- Test of PATTERNS.community = /^i\/communities\// : the string starts with
the community namespace path. -/
def communityTest (s : String) : Bool :=
  List.isPrefixOf ("i/communities/".data) s.data

/-- Profile record as consumed by ProfileAnalyzer (username plus the two
counts; the analyzer reads no other field). -/
structure Profile where
  username : String
  followersCount : Nat
  followingCount : Nat
deriving DecidableEq

/-- Result record of ProfileAnalyzer.analyzeBotProbability. -/
@[ext] structure BotAnalysis where
  probability : ℚ
  reasons : List String
deriving DecidableEq

/-- Weight SCORES.noFollowers. -/
def SCORES_noFollowers : ℚ := 0.3
/-- Weight SCORES.randomAlphanumeric. -/
def SCORES_randomAlphanumeric : ℚ := 0.3
/-- Weight SCORES.manyNumbers. -/
def SCORES_manyNumbers : ℚ := 0.2
/-- Weight SCORES.botKeywords. -/
def SCORES_botKeywords : ℚ := 0.3
/-- Weight SCORES.randomSuffix. -/
def SCORES_randomSuffix : ℚ := 0.2
/-- Weight SCORES.numericSuffix. -/
def SCORES_numericSuffix : ℚ := 0.2
/-- Weight SCORES.randomLetters. -/
def SCORES_randomLetters : ℚ := 0.2

/-- Embedding of ProfileAnalyzer.calculateBotProbability: accumulate the weight
of every matched condition over the lower-cased username, then cap at 0.9. -/
def calculateBotProbability (p : Profile) : ℚ :=
  let score : ℚ := 0
  let score := if p.followersCount = 0 ∧ p.followingCount = 0 then score + SCORES_noFollowers else score
  let username := jsToLower p.username
  let score := if randomAlphanumericTest username then score + SCORES_randomAlphanumeric else score
  let score := if manyNumbersTest username then score + SCORES_manyNumbers else score
  let score := if botKeywordsTest username then score + SCORES_botKeywords else score
  let score := if randomSuffixTest username then score + SCORES_randomSuffix else score
  let score := if numericSuffixTest username then score + SCORES_numericSuffix else score
  let score := if randomLettersTest username.data then score + SCORES_randomLetters else score
  min score 0.9

/-- Embedding of ProfileAnalyzer.analyzeBotProbability: community usernames are
exempted outright, otherwise the probability comes from
`calculateBotProbability` and one fixed reason string is appended per matched
condition, in source order. -/
def analyzeBotProbability (p : Profile) : BotAnalysis :=
  if communityTest p.username then ⟨0, []⟩
  else
    let probability := calculateBotProbability p
    let username := jsToLower p.username
    let reasons : List String :=
      (if p.followersCount = 0 ∧ p.followingCount = 0 then ["No followers or following"] else []) ++
      (if randomAlphanumericTest username then ["Random alphanumeric username"] else []) ++
      (if manyNumbersTest username then ["Username contains many numbers"] else []) ++
      (if botKeywordsTest username then ["Username contains bot-like keywords"] else []) ++
      (if randomSuffixTest username then ["Username has random number suffix"] else []) ++
      (if numericSuffixTest username then ["Username ends with many numbers"] else []) ++
      (if randomLettersTest username.data then ["Username has random letters and numbers"] else [])
    ⟨probability, reasons⟩

/-- Number of scoring conditions of the analyzer that match a profile: the
no-followers condition plus the six username heuristics, evaluated exactly as
in the source. -/
def matchedConditionCount (p : Profile) : Nat :=
  (if p.followersCount = 0 ∧ p.followingCount = 0 then 1 else 0) +
  (if randomAlphanumericTest (jsToLower p.username) then 1 else 0) +
  (if manyNumbersTest (jsToLower p.username) then 1 else 0) +
  (if botKeywordsTest (jsToLower p.username) then 1 else 0) +
  (if randomSuffixTest (jsToLower p.username) then 1 else 0) +
  (if numericSuffixTest (jsToLower p.username) then 1 else 0) +
  (if randomLettersTest (jsToLower p.username).data then 1 else 0)

/-- Sum of the weights of the matched scoring conditions, before the 0.9 cap. -/
def matchedWeightSum (p : Profile) : ℚ :=
  (if p.followersCount = 0 ∧ p.followingCount = 0 then SCORES_noFollowers else 0) +
  (if randomAlphanumericTest (jsToLower p.username) then SCORES_randomAlphanumeric else 0) +
  (if manyNumbersTest (jsToLower p.username) then SCORES_manyNumbers else 0) +
  (if botKeywordsTest (jsToLower p.username) then SCORES_botKeywords else 0) +
  (if randomSuffixTest (jsToLower p.username) then SCORES_randomSuffix else 0) +
  (if numericSuffixTest (jsToLower p.username) then SCORES_numericSuffix else 0) +
  (if randomLettersTest (jsToLower p.username).data then SCORES_randomLetters else 0)

lemma ite_add_shift (c : Prop) [Decidable c] (s w : ℚ) :
    (if c then s + w else s) = s + (if c then w else 0) := by
  split <;> simp

lemma calculateBotProbability_eq_min (p : Profile) :
    calculateBotProbability p = min (matchedWeightSum p) 0.9 := by
  simp only [calculateBotProbability, ite_add_shift]
  unfold matchedWeightSum
  exact congrArg (fun x => min x (0.9 : ℚ)) (by ring)

lemma matchedWeightSum_nonneg (p : Profile) : 0 ≤ matchedWeightSum p := by
  have hw : ∀ (c : Prop) [Decidable c] (w : ℚ), 0 ≤ w → 0 ≤ (if c then w else 0) := by
    intro c _ w hw
    split
    · exact hw
    · exact le_refl 0
  unfold matchedWeightSum
  repeat' apply add_nonneg
  all_goals apply hw
  all_goals
    norm_num [SCORES_noFollowers, SCORES_randomAlphanumeric, SCORES_manyNumbers,
      SCORES_botKeywords, SCORES_randomSuffix, SCORES_numericSuffix, SCORES_randomLetters]

/-- Claim C3: for every profile whose username matches the community-exemption
pattern (path beginning with the community namespace prefix), the scoring
operation returns probability 0 and an empty reasons sequence, regardless of
follower and following counts and of any other pattern match: the exemption
branch returns before any heuristic runs. -/
theorem c3_community_exemption (p : Profile) (h : communityTest p.username = true) :
    analyzeBotProbability p = ⟨0, []⟩ := by
  unfold analyzeBotProbability
  rw [if_pos h]

/-- Helper profile for the community-exemption witness: a community path with
nonzero counts. -/
def p3w : Profile := ⟨"i/communities/123", 5, 7⟩

theorem c3_community_exemption_witness :
    communityTest p3w.username = true ∧ analyzeBotProbability p3w = ⟨0, []⟩ :=
  ⟨by decide, c3_community_exemption p3w (by decide)⟩

/-- Claim C4: for every profile record the probability returned by the scoring
operation lies between 0 and 0.9 inclusive: the accumulated weighted score is
clamped to a maximum of 0.9. -/
theorem c4_probability_bounds (p : Profile) :
    0 ≤ (analyzeBotProbability p).probability ∧ (analyzeBotProbability p).probability ≤ 0.9 := by
  unfold analyzeBotProbability
  split
  · show (0:ℚ) ≤ 0 ∧ (0:ℚ) ≤ 0.9
    constructor <;> norm_num
  · show 0 ≤ calculateBotProbability p ∧ calculateBotProbability p ≤ 0.9
    rw [calculateBotProbability_eq_min p]
    exact ⟨le_min (matchedWeightSum_nonneg p) (by norm_num), min_le_right _ _⟩

/-- Claim C5: for a non-exempt profile the reasons sequence has exactly one
entry per matched scoring condition (the no-followers condition plus each
username heuristic), and the probability is the clamped sum of exactly the
matched weights; under the community exemption both are zero and empty. -/
theorem c5_reasons_match_conditions (p : Profile) :
    (communityTest p.username = false →
      (analyzeBotProbability p).reasons.length = matchedConditionCount p ∧
      (analyzeBotProbability p).probability = min (matchedWeightSum p) 0.9) ∧
    (communityTest p.username = true →
      (analyzeBotProbability p).probability = 0 ∧ (analyzeBotProbability p).reasons = []) := by
  constructor
  · intro h
    unfold analyzeBotProbability
    rw [if_neg (by simp [h])]
    refine ⟨?_, calculateBotProbability_eq_min p⟩
    simp only [matchedConditionCount, List.length_append, apply_ite List.length,
      List.length_singleton, List.length_nil]
  · intro h
    unfold analyzeBotProbability
    rw [if_pos h]
    exact ⟨rfl, rfl⟩

/-- Helper profile for the reasons-count witness. -/
def p5w : Profile := ⟨"bob1234x", 3, 0⟩

theorem c5_reasons_match_conditions_witness :
    communityTest p5w.username = false ∧
    (analyzeBotProbability p5w).reasons.length = matchedConditionCount p5w ∧
    (analyzeBotProbability p5w).probability = min (matchedWeightSum p5w) 0.9 :=
  ⟨by decide, (c5_reasons_match_conditions p5w).1 (by decide)⟩

/-- Helper profile for the clamp scenario: the spec's spam12345 example. -/
def spamProfile : Profile := ⟨"spam12345", 0, 0⟩

/-- Claim C6: for username spam12345 with zero followers and following, the
scoring operation returns probability exactly 0.9 (the accumulated weights 1.5
exceed the cap and are clamped), and the reasons sequence contains the four
quoted strings as a subsequence in the fixed evaluation order. -/
theorem c6_spam12345_clamped :
    analyzeBotProbability spamProfile =
      ⟨0.9, ["No followers or following", "Random alphanumeric username",
             "Username contains many numbers", "Username contains bot-like keywords",
             "Username has random number suffix", "Username ends with many numbers"]⟩ ∧
    List.Sublist ["No followers or following", "Username contains many numbers",
        "Username contains bot-like keywords", "Username ends with many numbers"]
      (analyzeBotProbability spamProfile).reasons := by
  have hre : (analyzeBotProbability spamProfile).reasons =
      ["No followers or following", "Random alphanumeric username",
       "Username contains many numbers", "Username contains bot-like keywords",
       "Username has random number suffix", "Username ends with many numbers"] := by decide
  have h2 : randomAlphanumericTest (jsToLower ("spam12345")) = true := by decide
  have h3 : manyNumbersTest (jsToLower ("spam12345")) = true := by decide
  have h4 : botKeywordsTest (jsToLower ("spam12345")) = true := by decide
  have h5 : randomSuffixTest (jsToLower ("spam12345")) = true := by decide
  have h6 : numericSuffixTest (jsToLower ("spam12345")) = true := by decide
  have h7 : randomLettersTest (jsToLower ("spam12345")).data = false := by decide
  have hsum : matchedWeightSum spamProfile = 1.5 := by
    norm_num [matchedWeightSum, spamProfile, h2, h3, h4, h5, h6, h7,
      SCORES_noFollowers, SCORES_randomAlphanumeric, SCORES_manyNumbers,
      SCORES_botKeywords, SCORES_randomSuffix, SCORES_numericSuffix, SCORES_randomLetters]
  have hp9 : (analyzeBotProbability spamProfile).probability = 0.9 := by
    unfold analyzeBotProbability
    rw [if_neg (by decide)]
    show calculateBotProbability spamProfile = 0.9
    rw [calculateBotProbability_eq_min, hsum]
    exact min_eq_right (by norm_num)
  constructor
  · exact BotAnalysis.ext hp9 hre
  · rw [hre]
    decide

lemma toNat_ofNat_of_valid {n : Nat} (h : n.isValidChar) : (Char.ofNat n).toNat = n := by
  rw [Char.ofNat, dif_pos h]
  rfl

lemma isUpperC_charToLower (c : Char) : isUpperC (charToLower c) = false := by
  unfold charToLower
  split
  case isTrue h =>
    have hc : 65 ≤ c.toNat ∧ c.toNat ≤ 90 := by simpa [isUpperC] using h
    have hv : (c.toNat + 32).isValidChar := Or.inl (by omega)
    simp only [isUpperC, toNat_ofNat_of_valid hv]
    simp only [decide_eq_false_iff_not]
    omega
  case isFalse h =>
    simpa [isUpperC] using h

lemma rlMatchAt_eq_false {l : List Char} (h : ∀ c ∈ l, isUpperC c = false) :
    rlMatchAt l = false := by
  match l with
  | [] => rfl
  | [a] => rfl
  | a :: b :: rest =>
    have ha : isUpperC a = false := h a (by simp)
    simp [rlMatchAt, ha]

lemma randomLettersTest_eq_false {l : List Char} (h : ∀ c ∈ l, isUpperC c = false) :
    randomLettersTest l = false := by
  induction l with
  | nil => rfl
  | cons c rest ih =>
    rw [randomLettersTest, rlMatchAt_eq_false h,
      ih (fun x hx => h x (List.mem_cons_of_mem c hx))]
    rfl

lemma jsToLower_no_upper (s : String) : ∀ c ∈ (jsToLower s).data, isUpperC c = false := by
  intro c hc
  have hc' : c ∈ s.data.map charToLower := hc
  obtain ⟨a, _, rfl⟩ := List.mem_map.mp hc'
  exact isUpperC_charToLower a

/-- Claim C10: the mixed-case random-letters heuristic can never fire, because
it is evaluated against the lower-cased username: the pattern test returns
false on every lower-cased string, and the corresponding reason string never
appears in any analysis result (hence its weight is never added). -/
theorem c10_random_letters_dead (s : String) (p : Profile) :
    randomLettersTest (jsToLower s).data = false ∧
    ((analyzeBotProbability p).reasons.contains ("Username has random letters and numbers")) = false := by
  constructor
  · exact randomLettersTest_eq_false (jsToLower_no_upper s)
  · have hrl : randomLettersTest (jsToLower p.username).data = false :=
      randomLettersTest_eq_false (jsToLower_no_upper p.username)
    unfold analyzeBotProbability
    split
    · rfl
    · simp only [hrl, Bool.false_eq_true, if_false, List.append_nil]
      split_ifs <;> decide

/-- Structural category of a notification container (NotificationType of the
source's type module, as used by DOMExtractor). -/
inductive NotificationType
  | PinnedPost
  | Trending
  | CommunityPost
  | UserInteraction
  | MultiUser
deriving DecidableEq

/-- Interaction verb derived from the container text. -/
inductive InteractionType
  | Like
  | Reply
  | Repost
  | Follow
deriving DecidableEq

/-- The narrowed discriminator used inside DOMExtractor (UserNotificationType). -/
inductive UserNotificationType
  | user_interaction
  | multi_user
deriving DecidableEq

/-- Test of DOMExtractor PATTERNS.PINNED_POST = /new pinned post in/i against
the already lower-cased container text (case-insensitivity is absorbed by the
lower-casing, so a plain substring search is faithful). -/
def pinnedPostTest (t : String) : Bool := containsSeq ("new pinned post in".data) t.data

/-- Test of PATTERNS.TRENDING = /trending in/i against the lower-cased text. -/
def trendingTest (t : String) : Bool := containsSeq ("trending in".data) t.data

/-- Test of PATTERNS.COMMUNITY_POST = /new community post in/i against the
lower-cased text. -/
def communityPostTest (t : String) : Bool := containsSeq ("new community post in".data) t.data

/-- Test of PATTERNS.MULTI_USER = /new post notifications for/i against the
lower-cased text. -/
def multiUserTest (t : String) : Bool := containsSeq ("new post notifications for".data) t.data

/-- Test of PATTERNS.LIKE = /liked/i against the lower-cased text. -/
def likedTest (t : String) : Bool := containsSeq ("liked".data) t.data

/-- Test of PATTERNS.REPLY = /replied/i against the lower-cased text. -/
def repliedTest (t : String) : Bool := containsSeq ("replied".data) t.data

/-- Test of PATTERNS.REPOST = /reposted/i against the lower-cased text. -/
def repostedTest (t : String) : Bool := containsSeq ("reposted".data) t.data

/-- Embedding of DOMExtractor determineInteractionType: first verb pattern to
match wins, Follow when none matches. -/
def determineInteractionType (t : String) : InteractionType :=
  if likedTest t then InteractionType.Like
  else if repliedTest t then InteractionType.Reply
  else if repostedTest t then InteractionType.Repost
  else InteractionType.Follow

/-- Whitespace class removed by the trim of the link text (space, tab, line
feed, carriage return, vertical tab, form feed). -/
def isWsC (c : Char) : Bool :=
  decide (c.toNat = 32 ∨ c.toNat = 9 ∨ c.toNat = 10 ∨ c.toNat = 13 ∨ c.toNat = 11 ∨ c.toNat = 12)

/-- Model of String.prototype.trim. -/
def trimStr (s : String) : String :=
  ⟨((s.data.dropWhile isWsC).reverse.dropWhile isWsC).reverse⟩

/-- Quote character class of the regex /^url\(['"](.+)['"]\)$/. -/
def isQuoteC (c : Char) : Bool := decide (c.toNat = 39 ∨ c.toNat = 34)

/-- Character test at index `i`, false past the end. -/
def quoteAt (l : List Char) (i : Nat) : Bool :=
  match l[i]? with
  | some c => isQuoteC c
  | none => false

/-- Closing parenthesis test at index `i`, false past the end. -/
def closeParenAt (l : List Char) (i : Nat) : Bool :=
  match l[i]? with
  | some c => decide (c.toNat = 41)
  | none => false

/-- Embedding of the replace of /^url\(['"](.+)['"]\)$/ with the first group:
when the whole string is a quoted css url wrapper the inner text (greedy, so up
to the final quote) is returned, otherwise the string is unchanged. -/
def stripUrl (s : String) : String :=
  let l := s.data
  let n := l.length
  if List.isPrefixOf ("url(".data) l && decide (8 ≤ n) && quoteAt l 4
      && closeParenAt l (n - 1) && quoteAt l (n - 2)
  then ⟨(l.drop 5).take (n - 7)⟩ else s

/-- One element carrying an inline background-image style inside an avatar
container, with its computed background-image value. -/
structure BgEl where
  bgImage : String
deriving DecidableEq

/-- Model of the avatar container element keyed by a username: the src of its
profile-image img child when present, and the elements with background-image
styles used by the fallback scan. -/
structure AvatarContainer where
  img : Option String
  bgEls : List BgEl
deriving DecidableEq

/-- Embedding of the fallback loop of DOMExtractor extractProfileImage: the
first background-image that is nonempty, not none, and references the
profile-image namespace is unwrapped and returned. -/
def scanBackgroundEls : List BgEl → Option String
  | [] => none
  | e :: rest =>
    if e.bgImage ≠ "" ∧ e.bgImage ≠ "none" ∧ containsSeq ("profile_images".data) e.bgImage.data
    then some (stripUrl e.bgImage) else scanBackgroundEls rest

/-- Embedding of DOMExtractor extractProfileImage: prefer the img child's src
(when truthy), else scan background images. -/
def extractProfileImage (av : AvatarContainer) : Option String :=
  match av.img with
  | some src => if src ≠ "" then some src else scanBackgroundEls av.bgEls
  | none => scanBackgroundEls av.bgEls

/-- One anchor element with role link inside the cell, in DOM order. -/
structure LinkEl where
  href : Option String
  textContent : String
deriving DecidableEq

/-- Model of one notification cell: its flattened text, its role-link anchors
in DOM order, and the avatar-container lookup keyed by username. -/
structure Cell where
  textContent : String
  links : List LinkEl
  avatars : String → Option AvatarContainer

/-- Filter of the candidate user links: href present, starting with a slash and
not containing the reserved internal route segment. -/
def linkIsUserLink (link : LinkEl) : Bool :=
  match link.href with
  | some href => List.isPrefixOf ("/".data) href.data && !(containsSeq ("/i/".data) href.data)
  | none => false

/-- The user links of a cell, in DOM order (the filter of parseNotification). -/
def candidateLinks (cell : Cell) : List LinkEl := cell.links.filter linkIsUserLink

/-- Normalized per-user record built inside parseNotification
(UserProfileData). -/
structure UserProfileData where
  username : String
  displayName : String
  profileImageUrl : String
  followersCount : Nat
  followingCount : Nat
  interactionTimestamp : Nat
  interactionType : InteractionType
  notificationType : UserNotificationType
deriving DecidableEq

/-- Embedding of the per-link arrow inside parseNotification: derive the
username from the href (drop the leading slash, reject empty), resolve the
avatar container and profile image (reject when missing), fall back to the
username for a blank display name, and stamp the shared interaction data. -/
def buildUser (now : Nat) (cell : Cell) (text : String) (link : LinkEl) : Option UserProfileData :=
  match link.href with
  | none => none
  | some href =>
    let username : String := ⟨href.data.drop 1⟩
    if username.data = [] then none
    else
      match cell.avatars username with
      | none => none
      | some av =>
        match extractProfileImage av with
        | none => none
        | some img =>
          let displayName := if (trimStr link.textContent).data = [] then username else trimStr link.textContent
          some { username := username, displayName := displayName, profileImageUrl := img,
                 followersCount := 0, followingCount := 0, interactionTimestamp := now,
                 interactionType := determineInteractionType text,
                 notificationType := if multiUserTest text then UserNotificationType.multi_user
                                     else UserNotificationType.user_interaction }

/-- Result record of parseNotification (NotificationData); `users` is absent
for the structural kinds, mirroring the optional field of the source. -/
structure NotificationData where
  type : NotificationType
  text : String
  users : Option (List UserProfileData)
deriving DecidableEq

/-- Embedding of DOMExtractor parseNotification: lower-case the cell text, try
the three structural patterns in priority order, otherwise filter the user
links, build one record per resolvable link, and classify as MultiUser or
UserInteraction. -/
def parseNotification (now : Nat) (cell : Cell) : Option NotificationData :=
  let text := jsToLower cell.textContent
  if pinnedPostTest text then some ⟨NotificationType.PinnedPost, text, none⟩
  else if trendingTest text then some ⟨NotificationType.Trending, text, none⟩
  else if communityPostTest text then some ⟨NotificationType.CommunityPost, text, none⟩
  else
    let userLinks := candidateLinks cell
    if userLinks.isEmpty then none
    else
      let users := userLinks.filterMap (buildUser now cell text)
      if users.isEmpty then none
      else some ⟨if multiUserTest text then NotificationType.MultiUser else NotificationType.UserInteraction,
                 text, some users⟩

/-- Normalized output record of extractProfileData (ProfileData). -/
structure ProfileData where
  username : String
  displayName : String
  profileImageUrl : String
  followersCount : Nat
  followingCount : Nat
  interactionTimestamp : Nat
  interactionType : InteractionType
  notificationType : NotificationType
deriving DecidableEq

/-- Handle of the element offered to extractProfileData: its warning-class
membership and its enclosing notification cell, when one exists. -/
structure ElementHandle where
  isWarning : Bool
  cell : Option Cell

/-- Embedding of DOMExtractor extractProfileData: skip warning elements and
elements outside a cell, parse the notification, require a nonempty user list
and a user-relevant kind, then convert the first user record only. -/
def extractProfileData (now : Nat) (el : ElementHandle) : Option ProfileData :=
  if el.isWarning then none
  else
    match el.cell with
    | none => none
    | some cell =>
      match parseNotification now cell with
      | none => none
      | some nd =>
        match nd.users with
        | none => none
        | some users =>
          match users with
          | [] => none
          | u :: _ =>
            if nd.type = NotificationType.UserInteraction ∨ nd.type = NotificationType.MultiUser then
              some { username := u.username, displayName := u.displayName,
                     profileImageUrl := u.profileImageUrl, followersCount := u.followersCount,
                     followingCount := u.followingCount, interactionTimestamp := u.interactionTimestamp,
                     interactionType := u.interactionType,
                     notificationType := match u.notificationType with
                       | UserNotificationType.multi_user => NotificationType.MultiUser
                       | UserNotificationType.user_interaction => NotificationType.UserInteraction }
            else none

lemma parseNotification_structural (now : Nat) (cell : Cell)
    (h : (pinnedPostTest (jsToLower cell.textContent) || trendingTest (jsToLower cell.textContent)
          || communityPostTest (jsToLower cell.textContent)) = true) :
    ∃ k, parseNotification now cell = some ⟨k, jsToLower cell.textContent, none⟩ := by
  by_cases h1 : pinnedPostTest (jsToLower cell.textContent) = true
  · refine ⟨NotificationType.PinnedPost, ?_⟩
    unfold parseNotification
    rw [if_pos h1]
  · by_cases h2 : trendingTest (jsToLower cell.textContent) = true
    · refine ⟨NotificationType.Trending, ?_⟩
      unfold parseNotification
      rw [if_neg h1, if_pos h2]
    · have h3 : communityPostTest (jsToLower cell.textContent) = true := by
        simp only [Bool.or_eq_true] at h
        rcases h with (h' | h3)
        · rcases h' with (h1' | h2')
          · exact absurd h1' h1
          · exact absurd h2' h2
        · exact h3
      refine ⟨NotificationType.CommunityPost, ?_⟩
      unfold parseNotification
      rw [if_neg h1, if_neg h2, if_pos h3]

/-- Claim C7: a container whose lower-cased text matches a structural pattern
classifies as that structural kind with no user records, even when user links
are present; the patterns are tested in the fixed priority order pinned,
trending, community, and the first match short-circuits extraction, which then
yields no profile data at all. -/
theorem c7_structural_short_circuit (now : Nat) (cell : Cell) :
    (pinnedPostTest (jsToLower cell.textContent) = true →
      parseNotification now cell = some ⟨NotificationType.PinnedPost, jsToLower cell.textContent, none⟩) ∧
    (pinnedPostTest (jsToLower cell.textContent) = false →
      trendingTest (jsToLower cell.textContent) = true →
      parseNotification now cell = some ⟨NotificationType.Trending, jsToLower cell.textContent, none⟩) ∧
    (pinnedPostTest (jsToLower cell.textContent) = false →
      trendingTest (jsToLower cell.textContent) = false →
      communityPostTest (jsToLower cell.textContent) = true →
      parseNotification now cell = some ⟨NotificationType.CommunityPost, jsToLower cell.textContent, none⟩) ∧
    ((pinnedPostTest (jsToLower cell.textContent) || trendingTest (jsToLower cell.textContent)
        || communityPostTest (jsToLower cell.textContent)) = true →
      ∀ el : ElementHandle, el.isWarning = false → el.cell = some cell →
        extractProfileData now el = none) := by
  refine ⟨?_, ?_, ?_, ?_⟩
  · intro h1
    unfold parseNotification
    rw [if_pos h1]
  · intro h1 h2
    unfold parseNotification
    rw [if_neg (by simp [h1]), if_pos h2]
  · intro h1 h2 h3
    unfold parseNotification
    rw [if_neg (by simp [h1]), if_neg (by simp [h2]), if_pos h3]
  · intro hor el hw hc
    obtain ⟨k, hk⟩ := parseNotification_structural now cell hor
    unfold extractProfileData
    rw [if_neg (by simp [hw]), hc]
    dsimp only
    rw [hk]

/-- Avatar container used by the extraction witnesses. -/
def avatarA : AvatarContainer := ⟨some ("https://pbs.example/profile_images/a.png"), []⟩

/-- Second avatar container used by the extraction witnesses. -/
def avatarB : AvatarContainer := ⟨some ("https://pbs.example/profile_images/b.png"), []⟩

/-- Cell whose text matches the trending pattern while still carrying a
resolvable user link. -/
def c7wCell : Cell :=
  { textContent := "Trending in Canada",
    links := [⟨some ("/alice"), "Alice"⟩],
    avatars := fun u => if u = "alice" then some avatarA else none }

/-- Element handle wrapping the trending cell. -/
def el7w : ElementHandle := ⟨false, some c7wCell⟩

theorem c7_structural_short_circuit_witness :
    pinnedPostTest (jsToLower c7wCell.textContent) = false ∧
    trendingTest (jsToLower c7wCell.textContent) = true ∧
    parseNotification 0 c7wCell = some ⟨NotificationType.Trending, jsToLower c7wCell.textContent, none⟩ ∧
    extractProfileData 0 el7w = none :=
  ⟨by decide, by decide,
   (c7_structural_short_circuit 0 c7wCell).2.1 (by decide) (by decide),
   (c7_structural_short_circuit 0 c7wCell).2.2.2 (by decide) el7w rfl rfl⟩

lemma buildUser_interactionType {now : Nat} {cell : Cell} {t : String} {link : LinkEl}
    {u : UserProfileData} (h : buildUser now cell t link = some u) :
    u.interactionType = determineInteractionType t := by
  simp only [buildUser] at h
  repeat' split at h
  all_goals cases h
  all_goals rfl

/-- Claim C1 (amended): for a container not captured by a structural
short-circuit, any parse result carries exactly the sequence of successfully
built records, one per candidate link in DOM order and without deduplication;
and when the text matches the multi-user pattern together with the liked verb
and exactly two links resolve, the kind is MultiUser with two records whose
interaction type is Like. -/
theorem c1_per_link_records (now : Nat) (cell : Cell)
    (h1 : pinnedPostTest (jsToLower cell.textContent) = false)
    (h2 : trendingTest (jsToLower cell.textContent) = false)
    (h3 : communityPostTest (jsToLower cell.textContent) = false) :
    (∀ nd, parseNotification now cell = some nd →
      nd.users = some ((candidateLinks cell).filterMap (buildUser now cell (jsToLower cell.textContent)))) ∧
    (multiUserTest (jsToLower cell.textContent) = true →
      likedTest (jsToLower cell.textContent) = true →
      ((candidateLinks cell).filterMap (buildUser now cell (jsToLower cell.textContent))).length = 2 →
      parseNotification now cell = some ⟨NotificationType.MultiUser, jsToLower cell.textContent,
        some ((candidateLinks cell).filterMap (buildUser now cell (jsToLower cell.textContent)))⟩ ∧
      ∀ u ∈ (candidateLinks cell).filterMap (buildUser now cell (jsToLower cell.textContent)),
        u.interactionType = InteractionType.Like) := by
  have hparse : parseNotification now cell =
      (if (candidateLinks cell).isEmpty then none
       else if ((candidateLinks cell).filterMap (buildUser now cell (jsToLower cell.textContent))).isEmpty then none
       else some ⟨if multiUserTest (jsToLower cell.textContent) then NotificationType.MultiUser
                  else NotificationType.UserInteraction,
                  jsToLower cell.textContent,
                  some ((candidateLinks cell).filterMap (buildUser now cell (jsToLower cell.textContent)))⟩) := by
    unfold parseNotification
    rw [if_neg (by simp [h1]), if_neg (by simp [h2]), if_neg (by simp [h3])]
  constructor
  · intro nd hnd
    rw [hparse] at hnd
    split at hnd
    · exact absurd hnd (by simp)
    · split at hnd
      · exact absurd hnd (by simp)
      · cases hnd
        rfl
  · intro hmu hlike hlen
    have hbne : ((candidateLinks cell).filterMap (buildUser now cell (jsToLower cell.textContent))).isEmpty = false := by
      cases hb : (candidateLinks cell).filterMap (buildUser now cell (jsToLower cell.textContent)) with
      | nil => rw [hb] at hlen; simp at hlen
      | cons x xs => rfl
    have hcne : (candidateLinks cell).isEmpty = false := by
      cases hc : candidateLinks cell with
      | nil =>
        rw [hc] at hlen
        simp [List.filterMap] at hlen
      | cons x xs => rfl
    constructor
    · rw [hparse, if_neg (by simp [hcne]), if_neg (by simp [hbne]), if_pos hmu]
    · intro u hu
      obtain ⟨link, _, hbu⟩ := List.mem_filterMap.mp hu
      rw [buildUser_interactionType hbu]
      unfold determineInteractionType
      rw [if_pos hlike]

/-- Cell for the multi-user witness: the text matches the multi-user pattern
and the liked verb, and two links resolve. -/
def c1wCell : Cell :=
  { textContent := "New post notifications for Alice liked",
    links := [⟨some ("/alice"), "Alice"⟩, ⟨some ("/bob"), "Bob"⟩],
    avatars := fun u => if u = "alice" then some avatarA else if u = "bob" then some avatarB else none }

theorem c1_per_link_records_witness :
    (pinnedPostTest (jsToLower c1wCell.textContent) = false ∧
     trendingTest (jsToLower c1wCell.textContent) = false ∧
     communityPostTest (jsToLower c1wCell.textContent) = false ∧
     multiUserTest (jsToLower c1wCell.textContent) = true ∧
     likedTest (jsToLower c1wCell.textContent) = true ∧
     ((candidateLinks c1wCell).filterMap (buildUser 0 c1wCell (jsToLower c1wCell.textContent))).length = 2) ∧
    parseNotification 0 c1wCell = some ⟨NotificationType.MultiUser, jsToLower c1wCell.textContent,
      some ((candidateLinks c1wCell).filterMap (buildUser 0 c1wCell (jsToLower c1wCell.textContent)))⟩ :=
  ⟨⟨by decide, by decide, by decide, by decide, by decide, by decide⟩,
   ((c1_per_link_records 0 c1wCell (by decide) (by decide) (by decide)).2
     (by decide) (by decide) (by decide)).1⟩

/-- Cell refuting the literal claim: the text matches the multi-user pattern,
two links resolve, but no liked verb occurs, so the interaction type is
Follow, not Like. -/
def c1cexCell : Cell :=
  { textContent := "New post notifications for Alice",
    links := [⟨some ("/alice"), "Alice"⟩, ⟨some ("/bob"), "Bob"⟩],
    avatars := fun u => if u = "alice" then some avatarA else if u = "bob" then some avatarB else none }

/-- First record extracted from the counterexample cell. -/
def u1cex : UserProfileData :=
  ⟨"alice", "Alice", "https://pbs.example/profile_images/a.png", 0, 0, 0,
   InteractionType.Follow, UserNotificationType.multi_user⟩

/-- Second record extracted from the counterexample cell. -/
def u2cex : UserProfileData :=
  ⟨"bob", "Bob", "https://pbs.example/profile_images/b.png", 0, 0, 0,
   InteractionType.Follow, UserNotificationType.multi_user⟩

/-- Counterexample to claim C1 as stated: a container matching the multi-user
pattern with exactly two resolvable user links whose records carry interaction
type Follow, not Like (no liked verb in the text). -/
theorem c1_per_link_records_cex :
    multiUserTest (jsToLower c1cexCell.textContent) = true ∧
    parseNotification 0 c1cexCell = some ⟨NotificationType.MultiUser, jsToLower c1cexCell.textContent,
      some [u1cex, u2cex]⟩ ∧
    u1cex.interactionType = InteractionType.Follow ∧
    u2cex.interactionType = InteractionType.Follow ∧
    InteractionType.Follow ≠ InteractionType.Like := by
  refine ⟨by decide, by decide, rfl, rfl, by decide⟩

/-- Per-container state offered to BotDetector processNotification: the
processed-marker attribute and the element handle. -/
structure Notif where
  processed : Bool
  el : ElementHandle

/-- Observable side effects of one processNotification call: whether the
warning annotation was surfaced and whether the interaction was persisted. -/
structure Effects where
  warned : Bool
  persisted : Bool
deriving DecidableEq

/-- Absence of side effects. -/
def noEffects : Effects := ⟨false, false⟩

/-- Embedding of BotDetector.processNotification. The persistence collaborator
is modelled by `persistOk`: when the record-interaction call rejects, the
exception propagates out of the async function before the marker line runs, so
the marker is not set (the warning annotation has already been surfaced at
that point). -/
def processNotification (now : Nat) (persistOk : Bool) (n : Notif) : Notif × Effects :=
  if n.processed then (n, noEffects)
  else
    match extractProfileData now n.el with
    | none => (n, noEffects)
    | some pd =>
      let analysis := analyzeBotProbability ⟨pd.username, pd.followersCount, pd.followingCount⟩
      if 0.5 < analysis.probability then
        if persistOk then ({ n with processed := true }, ⟨true, true⟩)
        else (n, ⟨true, false⟩)
      else ({ n with processed := true }, noEffects)

/-- Claim C8: invoking processNotification on a container whose marker is
already set performs zero additional side effects and leaves the container
unchanged: no extraction, no scoring, no warning, no persistence. -/
theorem c8_idempotent_on_processed (now : Nat) (persistOk : Bool) (n : Notif)
    (h : n.processed = true) :
    processNotification now persistOk n = (n, noEffects) := by
  unfold processNotification
  rw [if_pos h]

/-- Already-processed container for the idempotence witness. -/
def n8w : Notif := ⟨true, ⟨false, some c7wCell⟩⟩

theorem c8_idempotent_on_processed_witness :
    n8w.processed = true ∧ processNotification 0 true n8w = (n8w, noEffects) :=
  ⟨rfl, c8_idempotent_on_processed 0 true n8w rfl⟩

/-- Claim C2 (amended): for an unprocessed container the marker is set exactly
when handling runs to completion: it is set when extraction produced a record
and either the probability was at most the threshold or the persistence call
succeeded; it is not set when extraction produced no record (early return) nor
when the persistence call failed (the rejection propagates first, after the
warning was surfaced). -/
theorem c2_marker_on_completion (now : Nat) (persistOk : Bool) (n : Notif)
    (h : n.processed = false) :
    (extractProfileData now n.el = none → processNotification now persistOk n = (n, noEffects)) ∧
    (∀ pd, extractProfileData now n.el = some pd →
      ((analyzeBotProbability ⟨pd.username, pd.followersCount, pd.followingCount⟩).probability ≤ 0.5 →
        processNotification now persistOk n = ({ n with processed := true }, noEffects)) ∧
      (0.5 < (analyzeBotProbability ⟨pd.username, pd.followersCount, pd.followingCount⟩).probability →
        (persistOk = true →
          processNotification now persistOk n = ({ n with processed := true }, ⟨true, true⟩)) ∧
        (persistOk = false → processNotification now persistOk n = (n, ⟨true, false⟩)))) := by
  unfold processNotification
  rw [if_neg (by simp [h])]
  constructor
  · intro he
    rw [he]
  · intro pd he
    rw [he]
    dsimp only
    constructor
    · intro hle
      rw [if_neg (not_lt.mpr hle)]
    · intro hgt
      rw [if_pos hgt]
      constructor
      · intro hp
        rw [hp, if_pos rfl]
      · intro hp
        rw [hp]
        rfl

/-- Cell with no user links at all: extraction yields no record. -/
def c2cexCell : Cell := { textContent := "hello", links := [], avatars := fun _ => none }

/-- Unprocessed container whose extraction fails. -/
def n2cex : Notif := ⟨false, ⟨false, some c2cexCell⟩⟩

/-- Counterexample to claim C2 as stated: a container for which extraction
produced zero records ends handling with the ProcessedMarker still unset (the
handler returns early, before the marker line). -/
theorem c2_marker_on_completion_cex :
    n2cex.processed = false ∧
    extractProfileData 0 n2cex.el = none ∧
    (processNotification 0 true n2cex).1.processed = false ∧
    (processNotification 0 true n2cex).2 = noEffects := by
  refine ⟨rfl, by decide, by decide, by decide⟩

/-- Cell of a plain single-liker notification with one resolvable link. -/
def cUserW : Cell :=
  { textContent := "Alice liked your post",
    links := [⟨some ("/alice"), "Alice"⟩],
    avatars := fun u => if u = "alice" then some avatarA else none }

/-- Unprocessed container around the single-liker cell, used for the amended
witness: extraction succeeds and the probability stays at the no-followers
weight 0.3, below the threshold, so the marker is set with no side effects. -/
def n2w : Notif := ⟨false, ⟨false, some cUserW⟩⟩

/-- Record extracted from the witness cell. -/
def pd2w : ProfileData :=
  ⟨"alice", "Alice", "https://pbs.example/profile_images/a.png", 0, 0, 0,
   InteractionType.Like, NotificationType.UserInteraction⟩

theorem c2_marker_on_completion_witness :
    n2w.processed = false ∧
    extractProfileData 0 n2w.el = some pd2w ∧
    (analyzeBotProbability ⟨pd2w.username, pd2w.followersCount, pd2w.followingCount⟩).probability ≤ 0.5 ∧
    processNotification 0 true n2w = ({ n2w with processed := true }, noEffects) := by
  have hple : (analyzeBotProbability ⟨pd2w.username, pd2w.followersCount, pd2w.followingCount⟩).probability ≤ 0.5 := by
    have hsum : matchedWeightSum ⟨pd2w.username, pd2w.followersCount, pd2w.followingCount⟩ = 0.3 := by
      norm_num [matchedWeightSum, pd2w, SCORES_noFollowers,
        (by decide : randomAlphanumericTest (jsToLower ("alice")) = false),
        (by decide : manyNumbersTest (jsToLower ("alice")) = false),
        (by decide : botKeywordsTest (jsToLower ("alice")) = false),
        (by decide : randomSuffixTest (jsToLower ("alice")) = false),
        (by decide : numericSuffixTest (jsToLower ("alice")) = false),
        (by decide : randomLettersTest (jsToLower ("alice")).data = false)]
    have hp : (analyzeBotProbability ⟨pd2w.username, pd2w.followersCount, pd2w.followingCount⟩).probability
        = calculateBotProbability ⟨pd2w.username, pd2w.followersCount, pd2w.followingCount⟩ := by
      unfold analyzeBotProbability
      rw [if_neg (by decide)]
    rw [hp, calculateBotProbability_eq_min, hsum]
    have : min (0.3 : ℚ) 0.9 = 0.3 := min_eq_left (by norm_num)
    rw [this]
    norm_num
  exact ⟨rfl, by decide, hple,
    ((c2_marker_on_completion 0 true n2w rfl).2 pd2w (by decide)).1 hple⟩

/-- Retry cap of the feed discovery (field maxRetries of BotDetector). -/
def maxRetries : Nat := 10

/-- Embedding of BotDetector.waitForNotificationsFeed: `env t` is what the
selector query finds on attempt number `t` (the page may change between
retries), `retryCount` is the mutable field. The query at the current attempt
is returned when it succeeds; otherwise the call gives up permanently once the
cap is reached, and retries after the delay otherwise. -/
def waitForNotificationsFeed {α : Type} (env : Nat → Option α) (retryCount : Nat) : Option α :=
  match env retryCount with
  | some feed => some feed
  | none =>
    if maxRetries ≤ retryCount then none
    else waitForNotificationsFeed env (retryCount + 1)
termination_by maxRetries + 1 - retryCount
decreasing_by omega

lemma waitForNotificationsFeed_spec {α : Type} (env : Nat → Option α) :
    ∀ fuel r, r ≤ maxRetries → maxRetries + 1 - r ≤ fuel →
      ((∀ t, r ≤ t → t ≤ maxRetries → env t = none) → waitForNotificationsFeed env r = none) ∧
      (waitForNotificationsFeed env r = none ∨
        ∃ t, r ≤ t ∧ t ≤ maxRetries ∧ env t ≠ none ∧ waitForNotificationsFeed env r = env t) := by
  intro fuel
  induction fuel with
  | zero =>
    intro r hr hf
    omega
  | succ fuel ih =>
    intro r hr hf
    have step : waitForNotificationsFeed env r =
        match env r with
        | some feed => some feed
        | none =>
          if maxRetries ≤ r then none
          else waitForNotificationsFeed env (r + 1) := by
      rw [waitForNotificationsFeed]
    cases henv : env r with
    | some feed =>
      rw [henv] at step
      constructor
      · intro hall
        have := hall r le_rfl hr
        rw [henv] at this
        exact absurd this (by simp)
      · right
        exact ⟨r, le_rfl, hr, by simp [henv], by rw [step, henv]⟩
    | none =>
      rw [henv] at step
      by_cases hcap : maxRetries ≤ r
      · rw [if_pos hcap] at step
        exact ⟨fun _ => step, Or.inl step⟩
      · rw [if_neg hcap] at step
        have hr' : r + 1 ≤ maxRetries := by omega
        have hf' : maxRetries + 1 - (r + 1) ≤ fuel := by omega
        obtain ⟨ih1, ih2⟩ := ih (r + 1) hr' hf'
        constructor
        · intro hall
          rw [step]
          exact ih1 (fun t ht1 ht2 => hall t (by omega) ht2)
        · rcases ih2 with hnone | ⟨t, ht1, ht2, ht3, ht4⟩
          · exact Or.inl (by rw [step, hnone])
          · exact Or.inr ⟨t, by omega, ht2, ht3, by rw [step, ht4]⟩

/-- Claim C9: the feed-discovery wait is bounded: starting at any retry count
within the cap, its result is decided by the query results of attempts up to
maxRetries = 10 only — when every such attempt fails it returns the definitive
not-found result none, and in general it either returns none or the feed found
at some attempt within the cap, so it never probes past the cap. -/
theorem c9_feed_wait_bounded {α : Type} (env : Nat → Option α) (r : Nat) (hr : r ≤ maxRetries) :
    ((∀ t, r ≤ t → t ≤ maxRetries → env t = none) → waitForNotificationsFeed env r = none) ∧
    (waitForNotificationsFeed env r = none ∨
      ∃ t, r ≤ t ∧ t ≤ maxRetries ∧ env t ≠ none ∧ waitForNotificationsFeed env r = env t) :=
  waitForNotificationsFeed_spec env (maxRetries + 1 - r) r hr le_rfl

/-- Environment in which the feed never appears. -/
def env9 : Nat → Option Nat := fun _ => none

theorem c9_feed_wait_bounded_witness :
    0 ≤ maxRetries ∧ waitForNotificationsFeed env9 0 = none :=
  ⟨Nat.zero_le _, (c9_feed_wait_bounded env9 0 (Nat.zero_le _)).1 (fun _ _ _ => rfl)⟩

end XBot
